import Mathlib

/-!
Shallow embedding of `src/lib/ntp-client.js` (node-ntp-client).

The source is a single-file NTP client: `getNetworkTime` builds a 48-byte
request packet, opens a UDP socket, arms a reply timer, sends the packet and
delivers exactly one result to a callback.  We embed:

* the JavaScript number arithmetic used by the decoder, with `Option ℚ` as
  the number type (`none` models `NaN`; JS `undefined` entering arithmetic
  becomes `NaN` and propagates);
* the request-packet construction (`new Buffer(48)`, `ntpData[0] = 0x1B`,
  the explicit zeroing loop over indices 1..47);
* the Transmit-Timestamp decoding of the message handler (accumulation over
  bytes 40..43 and 44..47, the milliseconds formula, and the
  `Date` arithmetic based at `new Date('Jan 01 1900 GMT')`);
* the event-handler state machine of one query: the timeout handler, the
  socket `error` handler, the `send` completion callback and the `message`
  handler, each transcribed from the source, driven by an arbitrary
  sequence of environment events processed in order (Node's event loop is
  single threaded).
-/

namespace NtpClient

/-- JavaScript numbers as used by the decoder: `some q` is a finite value,
`none` is `NaN` (also the result of arithmetic on `undefined`). -/
abbrev JsNum := Option ℚ

/-- JS addition: `NaN` propagates. -/
def jsAdd : JsNum → JsNum → JsNum
  | some a, some b => some (a + b)
  | _, _ => none

/-- JS multiplication: `NaN` propagates. -/
def jsMul : JsNum → JsNum → JsNum
  | some a, some b => some (a * b)
  | _, _ => none

/-- JS division: `NaN` propagates; a zero divisor gives a non-finite value
(the source only ever divides by the constant `0x100000000`). -/
def jsDiv : JsNum → JsNum → JsNum
  | some a, some b => if b = 0 then none else some (a / b)
  | _, _ => none

/-- `msg[i]` on a Node `Buffer`: the byte when `i` is in range, otherwise
`undefined`, which we map to `NaN` the moment it enters arithmetic. -/
def readByte (msg : List ℕ) (i : ℕ) : JsNum :=
  (msg[i]?).map (fun b => (b : ℚ))

/-- `const offsetTransmitTime = 40` from the message handler. -/
def offsetTransmitTime : ℕ := 40

/-- `for (let i = 0; i <= 3; i += 1) intpart = (256 * intpart) + msg[offsetTransmitTime + i]`. -/
def intpart (msg : List ℕ) : JsNum :=
  (List.range 4).foldl
    (fun acc i => jsAdd (jsMul (some 256) acc) (readByte msg (offsetTransmitTime + i)))
    (some 0)

/-- `for (let i = 4; i <= 7; i += 1) fractpart = (256 * fractpart) + msg[offsetTransmitTime + i]`. -/
def fractpart (msg : List ℕ) : JsNum :=
  ([4, 5, 6, 7] : List ℕ).foldl
    (fun acc i => jsAdd (jsMul (some 256) acc) (readByte msg (offsetTransmitTime + i)))
    (some 0)

/-- `const milliseconds = (intpart * 1000) + ((fractpart * 1000) / 0x100000000)`. -/
def milliseconds (msg : List ℕ) : JsNum :=
  jsAdd (jsMul (intpart msg) (some 1000))
    (jsDiv (jsMul (fractpart msg) (some 1000)) (some 4294967296))

/-- Time value (Unix-epoch milliseconds) of `new Date('Jan 01 1900 GMT')`:
1900-01-01T00:00:00.000 UTC. -/
def date1900UnixMs : ℚ := -2208988800000

/-- The `Date` handed to the callback, as a time value in Unix-epoch
milliseconds: `date.setUTCMilliseconds(date.getUTCMilliseconds() + milliseconds)`
on `new Date('Jan 01 1900 GMT')` (whose milliseconds field is 0) yields the
1900 base time plus `milliseconds`; `NaN` makes the date invalid (`none`). -/
def deliveredDate (msg : List ℕ) : JsNum :=
  jsAdd (some date1900UnixMs) (milliseconds msg)

/-- `export const defaultNtpPort = 123`. -/
def defaultNtpPort : ℕ := 123

/-- `export const ntpReplyTimeout = 10000`. -/
def ntpReplyTimeout : ℕ := 10000

/-- The body of the zeroing loop `for (let i = 1; i < 48; i += 1) ntpData[i] = 0`,
as a fold over the index list 1..47 (`List.range' 1 47 = [1, 2, ..., 47]`). -/
def zeroTail (b : List ℕ) : List ℕ :=
  (List.range' 1 47).foldl (fun acc i => acc.set i 0) b

/-- `const ntpData = new Buffer(48)` (uninitialised contents, supplied by the
environment as `uninit`), then `ntpData[0] = 0x1B` and the zeroing loop. -/
def ntpData (uninit : List ℕ) : List ℕ :=
  zeroTail (uninit.set 0 0x1B)

/-- An error value surfaced to the callback. -/
inductive JsErr : Type
  | timeoutMsg                -- the string 'Timeout waiting for NTP response.'
  | sendErr (code : ℕ)        -- the `err` argument of the send callback
  | sockErr (code : ℕ)        -- the `err` argument of the `error` handler
deriving DecidableEq, Repr

/-- One invocation of the user callback: `callback(null, date)` on success,
`callback(err, null)` on failure. -/
inductive Outcome : Type
  | success (date : JsNum)
  | failure (e : JsErr)
deriving DecidableEq, Repr

/-- `true` exactly on `callback(null, date)` invocations. -/
def Outcome.isSuccess : Outcome → Bool
  | success _ => true
  | failure _ => false

/-- The mutable state of one `getNetworkTime` query: the socket, the armed
timer, the `errorFired` flag, the registered handlers, and (for the
verification) a count of `client.close()` calls and the ordered log of
callback invocations. -/
structure QueryState : Type where
  packet : List ℕ          -- the `ntpData` buffer passed to `client.send`
  socketOpen : Bool        -- the UDP socket is open (closed sockets receive nothing)
  closeCount : ℕ           -- number of `client.close()` calls so far
  timerArmed : Bool        -- the `setTimeout` timer is armed (not fired, not cleared)
  timerDuration : ℕ        -- the duration the timer was armed for
  errorFired : Bool        -- the `errorFired` flag of the source
  sendDone : Bool          -- the `send` completion callback has run
  msgListener : Bool       -- the `once('message')` handler is registered
  log : List Outcome       -- callback invocations, in order
deriving DecidableEq, Repr

/-- Environment events that can reach the handlers of one query. -/
inductive Event : Type
  | timeoutFires                    -- the reply timer expires
  | sendComplete (err : Option ℕ)   -- the `send` callback runs (`some` = error)
  | socketError (code : ℕ)          -- the socket emits an `error` event
  | messageArrives (msg : List ℕ)   -- a datagram is delivered to the socket
deriving DecidableEq, Repr

/-- One step of the event loop: the handler the source registers for the
event, transcribed from the code; infeasible events (a timer that was
cleared, a duplicate send completion, a datagram on a closed socket or
without a registered listener) change nothing.

* timeout handler: `client.close(); callback('Timeout...', null)` — note the
  source neither checks nor sets `errorFired` here;
* `error` handler: `if (errorFired) return; callback(err, null);
  errorFired = true; clearTimeout(timeout)` — note no `client.close()`;
* send callback with error: `if (errorFired) return; clearTimeout(timeout);
  callback(err, null); errorFired = true; client.close()`;
* send callback without error: registers the `once('message')` handler;
* message handler: `clearTimeout(timeout); client.close();` decode;
  `callback(null, date)`. -/
def step (s : QueryState) : Event → QueryState
  | .timeoutFires =>
      if s.timerArmed then
        { s with timerArmed := false,
                 socketOpen := false, closeCount := s.closeCount + 1,
                 log := s.log ++ [.failure .timeoutMsg] }
      else s
  | .socketError code =>
      if s.errorFired then s
      else
        { s with log := s.log ++ [.failure (.sockErr code)],
                 errorFired := true,
                 timerArmed := false }
  | .sendComplete (some code) =>
      if s.sendDone then s
      else if s.errorFired then { s with sendDone := true }
      else
        { s with sendDone := true,
                 timerArmed := false,
                 log := s.log ++ [.failure (.sendErr code)],
                 errorFired := true,
                 socketOpen := false, closeCount := s.closeCount + 1 }
  | .sendComplete none =>
      if s.sendDone then s
      else { s with sendDone := true, msgListener := true }
  | .messageArrives msg =>
      if s.msgListener && s.socketOpen then
        { s with timerArmed := false,
                 socketOpen := false, closeCount := s.closeCount + 1,
                 msgListener := false,
                 log := s.log ++ [.success (deliveredDate msg)] }
      else s

/-- Process a sequence of events in order (Node's event loop is single
threaded, so a query trace is a list of handler runs). -/
def run (s : QueryState) (evts : List Event) : QueryState :=
  evts.foldl step s

/-- The state right after the synchronous body of `getNetworkTime` ran with a
valid callback: packet built, socket open, timer armed for `ntpReplyTimeout`,
`errorFired = false`, send in flight, no message handler yet, no callback
invocation yet. -/
def initState (uninit : List ℕ) : QueryState where
  packet := ntpData uninit
  socketOpen := true
  closeCount := 0
  timerArmed := true
  timerDuration := ntpReplyTimeout
  errorFired := false
  sendDone := false
  msgListener := false
  log := []

/-- The `callback` argument as received: absent (`undefined`), `null`, a
non-function value, or a function. -/
inductive CallbackArg : Type
  | undef
  | nullArg
  | nonFunction
  | fn
deriving DecidableEq, Repr

/-- `callback === null || typeof callback !== 'function'` — the guard at the
top of `getNetworkTime` (`typeof undefined` is not `'function'`, so an absent
callback is also rejected). -/
def callbackRejected : CallbackArg → Bool
  | .fn => false
  | _ => true

/-- `getNetworkTime(server, port, callback)`: with a rejected callback the
function returns at once (`none`: no socket, no timer, no send, no outcome);
otherwise it sets up the query and hands the state to the event loop. -/
def getNetworkTime (cb : CallbackArg) (uninit : List ℕ) : Option QueryState :=
  if callbackRejected cb then none
  else some (initState uninit)

/-- No `callback(null, date)` invocation occurs in the log. -/
def noSuccess (l : List Outcome) : Prop := ∀ o ∈ l, o.isSuccess = false

/-- The inductive invariant of one query: while the reply timer is armed the
query is untouched (no callback delivered, socket open, never closed, flag
clear), and the message handler exists only once the send callback ran. -/
def Inv (s : QueryState) : Prop :=
  (s.timerArmed = true →
    s.errorFired = false ∧ s.log = [] ∧ s.socketOpen = true ∧ s.closeCount = 0) ∧
  (s.sendDone = false → s.msgListener = false)

/-! ### Helper lemmas -/

theorem length_set_foldl (is : List ℕ) (b : List ℕ) :
    (is.foldl (fun acc i => acc.set i 0) b).length = b.length := by
  induction is generalizing b with
  | nil => rfl
  | cons i is ih => simpa [List.foldl_cons, List.length_set] using ih (b.set i 0)

theorem getElem?_set_foldl (is : List ℕ) (b : List ℕ) (j : ℕ) :
    (is.foldl (fun acc i => acc.set i 0) b)[j]?
      = if j ∈ is ∧ j < b.length then some 0 else b[j]? := by
  induction is generalizing b with
  | nil => simp
  | cons i is ih =>
      rw [List.foldl_cons, ih (b.set i 0)]
      have hlen : (b.set i 0).length = b.length := List.length_set b i 0
      by_cases hmem : j ∈ is
      · simp only [List.mem_cons, hmem, or_true, true_and, hlen]
        split_ifs with h
        · rfl
        · rw [List.getElem?_eq_none (Nat.le_of_not_lt h),
            List.getElem?_eq_none (by rw [hlen]; exact Nat.le_of_not_lt h)]
      · by_cases hij : i = j
        · subst hij
          simp only [List.mem_cons, hmem, or_false, hlen, List.getElem?_set]
          by_cases hlt : i < b.length
          · simp [hlt]
          · simp only [hlt, and_false, if_false, if_neg, ite_self]
            simp [List.getElem?_eq_none (Nat.le_of_not_lt hlt)]
        · have hji : j ≠ i := fun h => hij h.symm
          simp [List.mem_cons, hmem, hji, hlen, List.getElem?_set, hij]

theorem ntpData_length (uninit : List ℕ) : (ntpData uninit).length = uninit.length := by
  simp [ntpData, zeroTail, length_set_foldl, List.length_set]

theorem ntpData_getElem? (uninit : List ℕ) (j : ℕ) :
    (ntpData uninit)[j]?
      = if 1 ≤ j ∧ j ≤ 47 ∧ j < uninit.length then some 0
        else (uninit.set 0 0x1B)[j]? := by
  rw [ntpData, zeroTail, getElem?_set_foldl]
  have hmem : j ∈ List.range' 1 47 ↔ 1 ≤ j ∧ j < 48 := by
    rw [List.mem_range'_1]
  have hlen : (uninit.set 0 0x1B).length = uninit.length := List.length_set uninit 0 0x1B
  by_cases h : 1 ≤ j ∧ j ≤ 47 ∧ j < uninit.length
  · rw [if_pos ⟨hmem.mpr (by omega), by rw [hlen]; omega⟩, if_pos h]
  · rw [if_neg, if_neg h]
    rintro ⟨h1, h2⟩
    rw [hmem] at h1
    rw [hlen] at h2
    exact h ⟨h1.1, by omega, h2⟩

theorem readByte_eq_getD (msg : List ℕ) (i : ℕ) (h : i < msg.length) :
    readByte msg i = some ((msg.getD i 0 : ℕ) : ℚ) := by
  rw [readByte, List.getElem?_eq_getElem h]
  simp [List.getD_eq_getElem?_getD, List.getElem?_eq_getElem h]

theorem intpart_eval (msg : List ℕ) (h : 48 ≤ msg.length) :
    intpart msg
      = some (((msg.getD 40 0 * 256 ^ 3 + msg.getD 41 0 * 256 ^ 2
          + msg.getD 42 0 * 256 + msg.getD 43 0 : ℕ) : ℚ)) := by
  have hr : ∀ i : ℕ, i < 48 → readByte msg i = some ((msg.getD i 0 : ℕ) : ℚ) :=
    fun i hi => readByte_eq_getD msg i (lt_of_lt_of_le hi h)
  rw [intpart]
  rw [show List.range 4 = [0, 1, 2, 3] from rfl]
  simp only [List.foldl_cons, List.foldl_nil, offsetTransmitTime]
  rw [hr 40 (by norm_num), hr 41 (by norm_num), hr 42 (by norm_num), hr 43 (by norm_num)]
  simp only [jsMul, jsAdd, Option.some.injEq]
  push_cast
  ring

theorem fractpart_eval (msg : List ℕ) (h : 48 ≤ msg.length) :
    fractpart msg
      = some (((msg.getD 44 0 * 256 ^ 3 + msg.getD 45 0 * 256 ^ 2
          + msg.getD 46 0 * 256 + msg.getD 47 0 : ℕ) : ℚ)) := by
  have hr : ∀ i : ℕ, i < 48 → readByte msg i = some ((msg.getD i 0 : ℕ) : ℚ) :=
    fun i hi => readByte_eq_getD msg i (lt_of_lt_of_le hi h)
  rw [fractpart]
  simp only [List.foldl_cons, List.foldl_nil, offsetTransmitTime]
  rw [hr 44 (by norm_num), hr 45 (by norm_num), hr 46 (by norm_num), hr 47 (by norm_num)]
  simp only [jsMul, jsAdd, Option.some.injEq]
  push_cast
  ring

theorem milliseconds_eval (msg : List ℕ) (h : 48 ≤ msg.length) :
    milliseconds msg
      = some (((msg.getD 40 0 * 256 ^ 3 + msg.getD 41 0 * 256 ^ 2
            + msg.getD 42 0 * 256 + msg.getD 43 0 : ℕ) : ℚ) * 1000
          + ((msg.getD 44 0 * 256 ^ 3 + msg.getD 45 0 * 256 ^ 2
            + msg.getD 46 0 * 256 + msg.getD 47 0 : ℕ) : ℚ) * 1000 / 4294967296) := by
  rw [milliseconds, intpart_eval msg h, fractpart_eval msg h]
  norm_num [jsMul, jsAdd, jsDiv]

theorem deliveredDate_eval (msg : List ℕ) (h : 48 ≤ msg.length) :
    deliveredDate msg
      = some (date1900UnixMs
          + (((msg.getD 40 0 * 256 ^ 3 + msg.getD 41 0 * 256 ^ 2
              + msg.getD 42 0 * 256 + msg.getD 43 0 : ℕ) : ℚ) * 1000
            + ((msg.getD 44 0 * 256 ^ 3 + msg.getD 45 0 * 256 ^ 2
              + msg.getD 46 0 * 256 + msg.getD 47 0 : ℕ) : ℚ) * 1000 / 4294967296)) := by
  rw [deliveredDate, milliseconds_eval msg h, jsAdd]

theorem noSuccess_append_failure (l : List Outcome) (e : JsErr) (h : noSuccess l) :
    noSuccess (l ++ [.failure e]) := by
  intro o ho
  rcases List.mem_append.mp ho with hl | hr
  · exact h o hl
  · simp only [List.mem_singleton] at hr
    subst hr
    rfl

theorem run_nil (s : QueryState) : run s [] = s := rfl

theorem run_cons (s : QueryState) (e : Event) (evts : List Event) :
    run s (e :: evts) = run (step s e) evts := rfl

theorem step_closed (s : QueryState) (e : Event) (hopen : s.socketOpen = false)
    (hlog : noSuccess s.log) :
    (step s e).socketOpen = false ∧ noSuccess (step s e).log := by
  cases e with
  | timeoutFires =>
      by_cases harm : s.timerArmed <;>
        simp [step, harm, hopen, hlog, noSuccess_append_failure]
  | socketError c =>
      by_cases hef : s.errorFired <;>
        simp [step, hef, hopen, hlog, noSuccess_append_failure]
  | sendComplete err =>
      cases err with
      | none =>
          by_cases hsd : s.sendDone <;> simp [step, hsd, hopen, hlog]
      | some c =>
          by_cases hsd : s.sendDone
          · simp [step, hsd, hopen, hlog]
          · by_cases hef : s.errorFired <;>
              simp [step, hsd, hef, hopen, hlog, noSuccess_append_failure]
  | messageArrives m =>
      simp [step, hopen, hlog]

theorem closed_run (evts : List Event) (s : QueryState) (hopen : s.socketOpen = false)
    (hlog : noSuccess s.log) :
    (run s evts).socketOpen = false ∧ noSuccess (run s evts).log := by
  induction evts generalizing s with
  | nil => exact ⟨hopen, hlog⟩
  | cons e evts ih =>
      rw [run_cons]
      obtain ⟨h1, h2⟩ := step_closed s e hopen hlog
      exact ih (step s e) h1 h2

theorem inv_initState (u : List ℕ) : Inv (initState u) := by
  constructor <;> intro hc <;> simp [initState]

theorem inv_step (s : QueryState) (e : Event) (h : Inv s) : Inv (step s e) := by
  obtain ⟨h1, h2⟩ := h
  cases e with
  | timeoutFires =>
      by_cases harm : s.timerArmed
      · exact ⟨by simp [step, harm], by simp [step, harm]; exact h2⟩
      · simpa [step, harm] using ⟨h1, h2⟩
  | socketError c =>
      by_cases hef : s.errorFired
      · simpa [step, hef] using ⟨h1, h2⟩
      · exact ⟨by simp [step, hef], by simp [step, hef]; exact h2⟩
  | sendComplete err =>
      cases err with
      | none =>
          by_cases hsd : s.sendDone
          · simpa [step, hsd] using ⟨h1, h2⟩
          · refine ⟨fun harm => ?_, by simp [step, hsd]⟩
            have := h1 (by simpa [step, hsd] using harm)
            simpa [step, hsd] using this
      | some c =>
          by_cases hsd : s.sendDone
          · simpa [step, hsd] using ⟨h1, h2⟩
          · by_cases hef : s.errorFired
            · refine ⟨fun harm => ?_, by simp [step, hsd, hef]⟩
              have harm' : s.timerArmed = true := by simpa [step, hsd, hef] using harm
              exact absurd (h1 harm').1 (by simp [hef])
            · exact ⟨by simp [step, hsd, hef], by simp [step, hsd, hef]⟩
  | messageArrives m =>
      by_cases hcond : s.msgListener && s.socketOpen
      · exact ⟨by simp [step, hcond], by simp [step, hcond]⟩
      · simpa [step, hcond] using ⟨h1, h2⟩

theorem inv_run (evts : List Event) (s : QueryState) (h : Inv s) : Inv (run s evts) := by
  induction evts generalizing s with
  | nil => exact h
  | cons e evts ih => exact ih (step s e) (inv_step s e h)

theorem inv_reachable (u : List ℕ) (tr : List Event) : Inv (run (initState u) tr) :=
  inv_run tr (initState u) (inv_initState u)

/-- A query in this state is finished for good: every handler the source
registered is permanently inert, so no event changes anything. -/
theorem dead_step (s : QueryState) (e : Event) (hef : s.errorFired = true)
    (hta : s.timerArmed = false) (hsd : s.sendDone = true) (hml : s.msgListener = false) :
    step s e = s := by
  cases e with
  | timeoutFires => simp [step, hta]
  | socketError c => simp [step, hef]
  | sendComplete err => cases err <;> simp [step, hsd]
  | messageArrives m => simp [step, hml]

theorem dead_run (evts : List Event) (s : QueryState) (hef : s.errorFired = true)
    (hta : s.timerArmed = false) (hsd : s.sendDone = true) (hml : s.msgListener = false) :
    run s evts = s := by
  induction evts with
  | nil => rfl
  | cons e evts ih => rw [run_cons, dead_step s e hef hta hsd hml, ih]

theorem jsAdd_none_right (x : JsNum) : jsAdd x none = none := by
  cases x <;> rfl

/-! ### Claim theorems -/

/-- C2: for every received response of at least 48 bytes, `intpart` is the
big-endian base-256 accumulation of bytes 40–43, `fractpart` of bytes 44–47,
the decoded milliseconds equal `intpart*1000 + fractpart*1000/2^32`, and the
date delivered to the callback is the 1900-01-01 UTC epoch plus that many
milliseconds. -/
theorem C2_timestamp_decode (msg : List ℕ) (h : 48 ≤ msg.length) :
    intpart msg
      = some (((msg.getD 40 0 * 256 ^ 3 + msg.getD 41 0 * 256 ^ 2
          + msg.getD 42 0 * 256 + msg.getD 43 0 : ℕ) : ℚ)) ∧
    fractpart msg
      = some (((msg.getD 44 0 * 256 ^ 3 + msg.getD 45 0 * 256 ^ 2
          + msg.getD 46 0 * 256 + msg.getD 47 0 : ℕ) : ℚ)) ∧
    milliseconds msg
      = some (((msg.getD 40 0 * 256 ^ 3 + msg.getD 41 0 * 256 ^ 2
            + msg.getD 42 0 * 256 + msg.getD 43 0 : ℕ) : ℚ) * 1000
          + ((msg.getD 44 0 * 256 ^ 3 + msg.getD 45 0 * 256 ^ 2
            + msg.getD 46 0 * 256 + msg.getD 47 0 : ℕ) : ℚ) * 1000 / 2 ^ 32) ∧
    deliveredDate msg
      = some (date1900UnixMs
          + (((msg.getD 40 0 * 256 ^ 3 + msg.getD 41 0 * 256 ^ 2
              + msg.getD 42 0 * 256 + msg.getD 43 0 : ℕ) : ℚ) * 1000
            + ((msg.getD 44 0 * 256 ^ 3 + msg.getD 45 0 * 256 ^ 2
              + msg.getD 46 0 * 256 + msg.getD 47 0 : ℕ) : ℚ) * 1000 / 2 ^ 32)) := by
  refine ⟨intpart_eval msg h, fractpart_eval msg h, ?_, ?_⟩
  · rw [milliseconds_eval msg h]
    norm_num
  · rw [deliveredDate_eval msg h]
    norm_num

/-- Witness for C2 at a concrete 48-byte message. -/
theorem C2_timestamp_decode_witness :
    48 ≤ (List.replicate 44 0 ++ [128, 0, 0, 0]).length ∧
    intpart (List.replicate 44 0 ++ [128, 0, 0, 0])
      = some ((((List.replicate 44 0 ++ [128, 0, 0, 0]).getD 40 0 * 256 ^ 3
          + (List.replicate 44 0 ++ [128, 0, 0, 0]).getD 41 0 * 256 ^ 2
          + (List.replicate 44 0 ++ [128, 0, 0, 0]).getD 42 0 * 256
          + (List.replicate 44 0 ++ [128, 0, 0, 0]).getD 43 0 : ℕ) : ℚ)) :=
  ⟨by decide, (C2_timestamp_decode (List.replicate 44 0 ++ [128, 0, 0, 0]) (by decide)).1⟩

/-- C3: for every query, the datagram handed to `client.send` is the 48-byte
`ntpData` buffer, whose byte 0 is `0x1B` and whose bytes 1–47 are all zero. -/
theorem C3_packet_shape (uninit : List ℕ) (h : uninit.length = 48) :
    (initState uninit).packet = ntpData uninit ∧
    (ntpData uninit).length = 48 ∧
    (ntpData uninit)[0]? = some 0x1B ∧
    ∀ j, 1 ≤ j → j ≤ 47 → (ntpData uninit)[j]? = some 0 := by
  refine ⟨by simp only [initState], ?_, ?_, ?_⟩
  · rw [ntpData_length, h]
  · rw [ntpData_getElem?, if_neg (by omega), List.getElem?_set]
    simp [h]
  · intro j h1 h2
    rw [ntpData_getElem?, if_pos ⟨h1, h2, by omega⟩]

/-- Witness for C3 at a concrete uninitialised buffer. -/
theorem C3_packet_shape_witness :
    (List.replicate 48 7).length = 48 ∧
    (ntpData (List.replicate 48 7)).length = 48 ∧
    (ntpData (List.replicate 48 7))[0]? = some 0x1B ∧
    (ntpData (List.replicate 48 7))[47]? = some 0 :=
  ⟨by decide, (C3_packet_shape (List.replicate 48 7) (by decide)).2.1,
    (C3_packet_shape (List.replicate 48 7) (by decide)).2.2.1,
    (C3_packet_shape (List.replicate 48 7) (by decide)).2.2.2 47 (by decide) (by decide)⟩

/-- C7: a synthetic 48-byte response whose Transmit-Timestamp bytes 40–47 are
all zero decodes to 0 milliseconds, and the delivered date is exactly
1900-01-01T00:00:00.000 UTC. -/
theorem C7_zero_timestamp (msg : List ℕ) (h48 : msg.length = 48)
    (hz : ∀ i, 40 ≤ i → i ≤ 47 → msg.getD i 0 = 0) :
    milliseconds msg = some 0 ∧ deliveredDate msg = some date1900UnixMs := by
  have h : 48 ≤ msg.length := h48.ge
  have hms : milliseconds msg = some 0 := by
    rw [milliseconds_eval msg h,
      hz 40 (by norm_num) (by norm_num), hz 41 (by norm_num) (by norm_num),
      hz 42 (by norm_num) (by norm_num), hz 43 (by norm_num) (by norm_num),
      hz 44 (by norm_num) (by norm_num), hz 45 (by norm_num) (by norm_num),
      hz 46 (by norm_num) (by norm_num), hz 47 (by norm_num) (by norm_num)]
    norm_num
  refine ⟨hms, ?_⟩
  rw [deliveredDate, hms]
  simp [jsAdd]

/-- Witness for C7 at the all-zero 48-byte message. -/
theorem C7_zero_timestamp_witness :
    milliseconds (List.replicate 48 0) = some 0 ∧
    deliveredDate (List.replicate 48 0) = some date1900UnixMs :=
  C7_zero_timestamp (List.replicate 48 0) (by decide)
    (fun i h1 h2 => by interval_cases i <;> rfl)

/-- C8: a response whose Transmit Timestamp has integer part 0 and fractional
part `0x80000000` decodes to exactly 500 milliseconds, and the delivered date
is exactly 500 ms after the 1900-01-01 UTC epoch. -/
theorem C8_half_fraction (msg : List ℕ) (h48 : msg.length = 48)
    (h40 : msg.getD 40 0 = 0) (h41 : msg.getD 41 0 = 0) (h42 : msg.getD 42 0 = 0)
    (h43 : msg.getD 43 0 = 0) (h44 : msg.getD 44 0 = 128) (h45 : msg.getD 45 0 = 0)
    (h46 : msg.getD 46 0 = 0) (h47 : msg.getD 47 0 = 0) :
    milliseconds msg = some 500 ∧ deliveredDate msg = some (date1900UnixMs + 500) := by
  have h : 48 ≤ msg.length := h48.ge
  have hms : milliseconds msg = some 500 := by
    rw [milliseconds_eval msg h, h40, h41, h42, h43, h44, h45, h46, h47]
    norm_num
  exact ⟨hms, by rw [deliveredDate, hms]; rfl⟩

/-- Witness for C8 at a concrete message with fraction `0x80000000`. -/
theorem C8_half_fraction_witness :
    milliseconds (List.replicate 40 0 ++ [0, 0, 0, 0, 128, 0, 0, 0]) = some 500 ∧
    deliveredDate (List.replicate 40 0 ++ [0, 0, 0, 0, 128, 0, 0, 0])
      = some (date1900UnixMs + 500) :=
  C8_half_fraction (List.replicate 40 0 ++ [0, 0, 0, 0, 128, 0, 0, 0]) (by decide)
    (by decide) (by decide) (by decide) (by decide) (by decide) (by decide) (by decide)
    (by decide)

/-- C9: a call to `getNetworkTime` whose callback argument is absent, `null`
or not a function is a no-op: it returns immediately with no query state (no
socket, no timer, no send, no outcome). -/
theorem C9_invalid_callback_noop (cb : CallbackArg) (uninit : List ℕ)
    (h : cb = .undef ∨ cb = .nullArg ∨ cb = .nonFunction) :
    getNetworkTime cb uninit = none := by
  rcases h with h | h | h <;> subst h <;> rfl

/-- Witness for C9 at an absent callback. -/
theorem C9_invalid_callback_noop_witness :
    getNetworkTime CallbackArg.undef [] = none :=
  C9_invalid_callback_noop CallbackArg.undef [] (Or.inl rfl)

/-- C5: every query arms its timer for `ntpReplyTimeout = 10000` ms; if the
timer fires while still armed (no reply decoded, no error delivered), the
query fails with the Timeout error as its only outcome, the socket is closed,
and no later event — in particular no late reply — ever produces a success. -/
theorem C5_timeout_path (u : List ℕ) (tr rest : List Event)
    (h : (run (initState u) tr).timerArmed = true) :
    ntpReplyTimeout = 10000 ∧
    (initState u).timerDuration = ntpReplyTimeout ∧
    (step (run (initState u) tr) .timeoutFires).log = [.failure .timeoutMsg] ∧
    (step (run (initState u) tr) .timeoutFires).socketOpen = false ∧
    noSuccess (run (step (run (initState u) tr) .timeoutFires) rest).log := by
  obtain ⟨h1, h2⟩ := inv_reachable u tr
  obtain ⟨hef, hlog, hopen, hcc⟩ := h1 h
  have hstep_log : (step (run (initState u) tr) .timeoutFires).log
      = [Outcome.failure .timeoutMsg] := by
    simp [step, h, hlog]
  have hstep_open : (step (run (initState u) tr) .timeoutFires).socketOpen = false := by
    simp [step, h]
  refine ⟨rfl, rfl, hstep_log, hstep_open, ?_⟩
  refine (closed_run rest _ hstep_open ?_).2
  rw [hstep_log]
  intro o ho
  rw [List.mem_singleton] at ho
  subst ho
  rfl

/-- Witness for C5: the timer is armed right after `getNetworkTime` returns,
and firing it closes the socket after the Timeout outcome. -/
theorem C5_timeout_path_witness :
    (run (initState ([] : List ℕ)) []).timerArmed = true ∧
    ntpReplyTimeout = 10000 ∧
    (step (run (initState ([] : List ℕ)) []) .timeoutFires).log
      = [.failure .timeoutMsg] ∧
    (step (run (initState ([] : List ℕ)) []) .timeoutFires).socketOpen = false :=
  ⟨rfl, (C5_timeout_path [] [] [] rfl).1, (C5_timeout_path [] [] [] rfl).2.2.1,
    (C5_timeout_path [] [] [] rfl).2.2.2.1⟩

/-- C6: if the send callback reports an error while the query is still
pending (timer armed, send not yet completed), the query fails at once with
that send error as its only outcome, the timer is disarmed, the socket is
closed exactly once, and no later event changes anything. -/
theorem C6_send_error_path (u : List ℕ) (tr : List Event) (c : ℕ) (rest : List Event)
    (harm : (run (initState u) tr).timerArmed = true)
    (hsd : (run (initState u) tr).sendDone = false) :
    (step (run (initState u) tr) (.sendComplete (some c))).log
      = [.failure (.sendErr c)] ∧
    (step (run (initState u) tr) (.sendComplete (some c))).timerArmed = false ∧
    (step (run (initState u) tr) (.sendComplete (some c))).socketOpen = false ∧
    (step (run (initState u) tr) (.sendComplete (some c))).closeCount = 1 ∧
    run (step (run (initState u) tr) (.sendComplete (some c))) rest
      = step (run (initState u) tr) (.sendComplete (some c)) := by
  obtain ⟨h1, h2⟩ := inv_reachable u tr
  obtain ⟨hef, hlog, hopen, hcc⟩ := h1 harm
  have hml := h2 hsd
  refine ⟨?_, ?_, ?_, ?_, ?_⟩
  · simp [step, hsd, hef, hlog]
  · simp [step, hsd, hef]
  · simp [step, hsd, hef]
  · simp [step, hsd, hef, hcc]
  · exact dead_run rest _ (by simp [step, hsd, hef]) (by simp [step, hsd, hef])
      (by simp [step, hsd, hef]) (by simp [step, hsd, hef, hml])

/-- Witness for C6: a send error as the first event of a fresh query. -/
theorem C6_send_error_path_witness :
    (run (initState ([] : List ℕ)) []).timerArmed = true ∧
    (run (initState ([] : List ℕ)) []).sendDone = false ∧
    (step (run (initState ([] : List ℕ)) []) (.sendComplete (some 3))).log
      = [.failure (.sendErr 3)] ∧
    (step (run (initState ([] : List ℕ)) []) (.sendComplete (some 3))).closeCount = 1 :=
  ⟨rfl, rfl, (C6_send_error_path [] [] 3 [] rfl rfl).1,
    (C6_send_error_path [] [] 3 [] rfl rfl).2.2.2.1⟩

/-- C1 is refuted by the code: the callback can be invoked twice for one
query.  First trace: the send succeeds, a socket error completes the query
(the `error` handler neither closes the socket nor removes the message
handler), then a late reply is delivered as a second, success outcome.
Second trace: the timeout fires (the timeout handler never sets
`errorFired`), then a send error fires the callback again. -/
theorem C1_double_callback :
    (run (initState (List.replicate 48 0))
        [.sendComplete none, .socketError 1, .messageArrives (List.replicate 48 0)]).log
      = [.failure (.sockErr 1), .success (some date1900UnixMs)] ∧
    (run (initState (List.replicate 48 0)) [.timeoutFires, .sendComplete (some 5)]).log
      = [.failure .timeoutMsg, .failure (.sendErr 5)] := by
  constructor <;>
    simp [run, step, initState, deliveredDate, date1900UnixMs, milliseconds, intpart,
      fractpart, jsAdd, jsMul, jsDiv, readByte, offsetTransmitTime, List.range,
      List.range.loop, List.getElem?_replicate]

/-- C4 is refuted by the code: on the socket-error exit path the query
completes (one outcome delivered) but `client.close()` is never called, and
in the timeout-then-send-error interleaving `client.close()` is called
twice. -/
theorem C4_socket_release_violated :
    (run (initState (List.replicate 48 0)) [.socketError 1]).log
      = [.failure (.sockErr 1)] ∧
    (run (initState (List.replicate 48 0)) [.socketError 1]).closeCount = 0 ∧
    (run (initState (List.replicate 48 0)) [.socketError 1]).socketOpen = true ∧
    (run (initState (List.replicate 48 0))
      [.timeoutFires, .sendComplete (some 5)]).closeCount = 2 := by
  refine ⟨?_, ?_, ?_, ?_⟩ <;> simp [run, step, initState]

/-- C10 as stated is false: a 44-byte datagram is shorter than 48 bytes, yet
its `intpart` reads only the present bytes 40–43 and is the finite value 0,
not `NaN`. -/
theorem C10_intpart_not_nan :
    (List.replicate 44 0).length < 48 ∧
    intpart (List.replicate 44 0) = some 0 ∧
    intpart (List.replicate 44 0) ≠ none := by
  refine ⟨by decide, ?_, ?_⟩ <;>
    simp [intpart, jsAdd, jsMul, readByte, offsetTransmitTime, List.range,
      List.range.loop, List.getElem?_replicate]

/-- C10 (amended): for every datagram shorter than 48 bytes the handler still
reads offsets 40–47; `fractpart` is `NaN` (and `intpart` too when the
datagram has fewer than 44 bytes), hence `milliseconds` and the date are
`NaN`, and the callback is invoked as a success (`null` error) carrying an
invalid date — a short reply is never reported as an error. -/
theorem C10_short_reply (msg : List ℕ) (hlen : msg.length < 48) (s : QueryState)
    (hml : s.msgListener = true) (hop : s.socketOpen = true) :
    fractpart msg = none ∧ milliseconds msg = none ∧ deliveredDate msg = none ∧
    (msg.length < 44 → intpart msg = none) ∧
    (step s (.messageArrives msg)).log = s.log ++ [.success none] := by
  have h47 : readByte msg (offsetTransmitTime + 7) = none := by
    rw [readByte, List.getElem?_eq_none (by rw [offsetTransmitTime]; omega)]
    rfl
  have hfract : fractpart msg = none := by
    rw [fractpart]
    simp only [List.foldl_cons, List.foldl_nil]
    rw [h47, jsAdd_none_right]
  have hms : milliseconds msg = none := by
    rw [milliseconds, hfract]
    rw [show jsMul none (some 1000) = none from rfl, show jsDiv none (some 4294967296) = none from rfl]
    exact jsAdd_none_right _
  have hdate : deliveredDate msg = none := by
    rw [deliveredDate, hms]
    exact jsAdd_none_right _
  refine ⟨hfract, hms, hdate, ?_, ?_⟩
  · intro h44
    have h43 : readByte msg (offsetTransmitTime + 3) = none := by
      rw [readByte, List.getElem?_eq_none (by rw [offsetTransmitTime]; omega)]
      rfl
    rw [intpart]
    rw [show List.range 4 = [0, 1, 2, 3] from rfl]
    simp only [List.foldl_cons, List.foldl_nil]
    rw [h43, jsAdd_none_right]
  · simp [step, hml, hop, hdate]

/-- Witness for the amended C10 at a 10-byte datagram arriving on a fresh
query whose send succeeded. -/
theorem C10_short_reply_witness :
    (List.replicate 10 0).length < 48 ∧
    fractpart (List.replicate 10 0) = none ∧
    intpart (List.replicate 10 0) = none ∧
    (step (run (initState (List.replicate 48 0)) [.sendComplete none])
        (.messageArrives (List.replicate 10 0))).log
      = (run (initState (List.replicate 48 0)) [.sendComplete none]).log
        ++ [.success none] :=
  ⟨by decide,
    (C10_short_reply (List.replicate 10 0) (by decide)
      (run (initState (List.replicate 48 0)) [.sendComplete none])
      (by simp [run, step, initState]) (by simp [run, step, initState])).1,
    (C10_short_reply (List.replicate 10 0) (by decide)
      (run (initState (List.replicate 48 0)) [.sendComplete none])
      (by simp [run, step, initState]) (by simp [run, step, initState])).2.2.2.1 (by decide),
    (C10_short_reply (List.replicate 10 0) (by decide)
      (run (initState (List.replicate 48 0)) [.sendComplete none])
      (by simp [run, step, initState]) (by simp [run, step, initState])).2.2.2.2⟩

end NtpClient
